import Mathlib

/-!
Shallow embedding of the lmklib key-module registries:

* `src/lib/key-module/example/pydriver/module.py`  (namespace `PyDriver`)
* `src/lib/key-module/example/pyfunc/module.py`    (namespace `PyFunc`)
* `src/lib/mcp3008-driver/mcp3008-driver.py`       (namespace `MCP3008Driver`)

The Python modules keep their registry in a global list; here every
operation takes the registry as an explicit argument and returns the
(possibly updated) registry together with the Python return value.

JSON values produced by `json.loads` are modelled by `JValue`.  The
payload argument of `load_data` is modelled as `Option JValue`: `none`
stands for a text blob on which `json.loads` raises (the `try/except`
in the source turns that into the string "Invalid data"), `some v` for
a blob parsing to `v`.

A Python call either returns a value or raises an uncaught exception;
`POut` distinguishes the two.  `PyResult` models the `{"ok": .., "err": ..}`
dictionaries built by the template helpers (only `name` in the example
driver actually returns one; the other operations return raw values,
modelled by `Except`/`Option`/bare values as each source line does).
-/

/-- JSON values as produced by Python's `json.loads`.  Objects keep their
field order; `json.loads` never yields duplicate keys (later keys win),
so an association-list lookup is faithful. -/
inductive JValue where
  | jnull : JValue
  | jbool : Bool → JValue
  | jint : Int → JValue
  | jstr : String → JValue
  | jarr : List JValue → JValue
  | jobj : List (String × JValue) → JValue

/-- Outcome of a Python call: a returned value, or an uncaught exception
(the string records the exception kind for readability only). -/
inductive POut (α : Type) where
  | ret : α → POut α
  | exn : String → POut α
deriving DecidableEq

/-- The `{"ok": .., "err": ..}` dictionary built by the template helpers
`ok`/`err` (src/lib/key-module/python/driver._template.py). -/
structure PyResult (α : Type) where
  ok : Option α
  err : Option String
deriving DecidableEq

/-- Python `isinstance(x, int)`.  `True`/`False` are instances of `int`
because `bool` is a subclass of `int`, so booleans pass this check. -/
def isInstInt : JValue → Bool
  | .jint _ => true
  | .jbool _ => true
  | _ => false

/-- Dictionary lookup `d[key]` on the field list of a JSON object. -/
def objLookup : List (String × JValue) → String → Option JValue
  | [], _ => none
  | (k, v) :: rest, key => if k == key then some v else objLookup rest key

/-- Substring test, modelling Python's `key in s` for strings. -/
def strContainsSub (s key : String) : Bool :=
  (List.range (s.length + 1)).any (fun i => key.isPrefixOf (s.drop i))

/-- Python `key in v` for a string `key`: key membership on dicts, element
membership on lists (a string equals only an equal string), substring test
on strings; `none` models the `TypeError` raised on non-container values. -/
def pyContains (key : String) : JValue → Option Bool
  | .jobj fs => some (fs.any (fun p => p.1 == key))
  | .jarr xs => some (xs.any (fun x => match x with | .jstr s => s == key | _ => false))
  | .jstr s => some (strContainsSub s key)
  | _ => none

/-- Python `v[key]` for a string `key`: `none` models the raised
`KeyError` (dict without the key) or `TypeError` (any non-dict, since
lists and strings require integer indices). -/
def pyGetStr (v : JValue) (key : String) : Option JValue :=
  match v with
  | .jobj fs => objLookup fs key
  | _ => none

/-- Python `for x in v`: the list of iterated elements.  Lists yield their
elements, strings their characters (as 1-character strings), dicts their
keys; `none` models the `TypeError` on non-iterables. -/
def pyIter : JValue → Option (List JValue)
  | .jarr xs => some xs
  | .jstr s => some (s.toList.map (fun c => .jstr (String.singleton c)))
  | .jobj fs => some (fs.map (fun p => .jstr p.1))
  | _ => none

/-- Python list indexing `xs[i]` with an `int` index: nonnegative indices
index from the front, negative indices from the back; `none` models the
raised `IndexError`. -/
def pyGet {α : Type} (xs : List α) (i : Int) : Option α :=
  if 0 ≤ i then xs.get? i.toNat
  else if 0 ≤ (xs.length : Int) + i then xs.get? ((xs.length : Int) + i).toNat
  else none

/-- Python list item assignment `xs[i] = a` (callers only reach it after a
successful read of the same index, so the out-of-range fallthrough that
returns `xs` unchanged is never hit on the paths modelled here). -/
def pySet {α : Type} (xs : List α) (i : Int) (a : α) : List α :=
  if 0 ≤ i then xs.set i.toNat a
  else if 0 ≤ (xs.length : Int) + i then xs.set ((xs.length : Int) + i).toNat a
  else xs

namespace PyDriver

/-- The `drivers` global of the example driver module: each entry is the
parsed payload dictionary appended by a successful `load_data`. -/
abbrev Registry := List JValue

/-- `load_data(name, data)` of src/lib/key-module/example/pydriver/module.py.
Returns the Python return value (an `int` handle or an error string,
modelled by `Except`) and the registry after the call.  The `or` in the
source short-circuits, so the second membership/type test only runs when
the first passed; on a payload that parses to a non-container, `"name"
not in data` raises `TypeError`; on a list or string payload containing
`"name"`, `data["name"]` raises `TypeError`. -/
def load_data (nm : String) (data : Option JValue) (drivers : Registry) :
    POut (Except String Nat) × Registry :=
  if nm = "Const" then
    match data with
    | none => (.ret (.error "Invalid data"), drivers)
    | some d =>
      match pyContains "name" d with
      | none => (.exn "TypeError", drivers)
      | some hn =>
        if hn then
          match pyContains "state" d with
          | none => (.exn "TypeError", drivers)
          | some hs =>
            if hs then
              match pyGetStr d "name" with
              | none => (.exn "TypeError", drivers)
              | some nv =>
                match nv with
                | .jstr _ =>
                  match pyGetStr d "state" with
                  | none => (.exn "TypeError", drivers)
                  | some sv =>
                    match sv with
                    | .jarr xs =>
                      if xs.all isInstInt then
                        (.ret (.ok drivers.length), drivers ++ [d])
                      else (.ret (.error "State must contain only ints"), drivers)
                    | _ => (.ret (.error "Wrong data field types"), drivers)
                | _ => (.ret (.error "Wrong data field types"), drivers)
            else (.ret (.error "Missing fields in data"), drivers)
        else (.ret (.error "Missing fields in data"), drivers)
  else (.ret (.error "Unknown driver"), drivers)

/-- `name(driver_id)` of the example driver module: the only operation that
wraps its outcome in the `{"ok": .., "err": ..}` envelope.  The guard is
`driver_id < len(drivers)` with no lower bound, so negative ids fall
through to Python's negative indexing. -/
def name (driver_id : Int) (drivers : Registry) : POut (PyResult JValue) :=
  if driver_id < (drivers.length : Int) then
    match pyGet drivers driver_id with
    | none => .exn "IndexError"
    | some d =>
      match pyGetStr d "name" with
      | none => .exn "KeyError"
      | some nv => .ret ⟨some nv, none⟩
  else .ret ⟨none, some "Unknown id"⟩

/-- `poll(driver_id)` of the example driver module: returns the raw stored
state list on success and the raw string "Unknown id" otherwise (no
envelope).  Same one-sided bound check as `name`. -/
def poll (driver_id : Int) (drivers : Registry) : POut (Except String JValue) :=
  if driver_id < (drivers.length : Int) then
    match pyGet drivers driver_id with
    | none => .exn "IndexError"
    | some d =>
      match pyGetStr d "state" with
      | none => .exn "KeyError"
      | some sv => .ret (.ok sv)
  else .ret (.error "Unknown id")

end PyDriver

namespace PyFunc

/-- The `func` global of the example function module: pairs of the raw
(unparsed) payload string and the previous-state integer. -/
abbrev Registry := List (String × Int)

/-- `load_data(name, data)` of src/lib/key-module/example/pyfunc/module.py.
The payload is never parsed or validated: any string is stored verbatim
with previous state `0`. -/
def load_data (nm : String) (data : String) (func : Registry) :
    Except String Nat × Registry :=
  if nm = "PyPrint" then (.ok func.length, func ++ [(data, 0)])
  else (.error "Unknown function", func)

/-- `event(func_id, state)` of the example function module.  The returned
`Option String` is the Python return value (`none` = Python `None`, the
implicit return of the success path); the `Bool` records whether the
`print` side effect fired; the registry entry is overwritten with the new
state either way.  The guard is again one-sided (`func_id < len(func)`). -/
def event (func_id : Int) (state : Int) (func : Registry) :
    POut (Option String) × Bool × Registry :=
  if func_id < (func.length : Int) then
    match pyGet func func_id with
    | none => (.exn "IndexError", false, func)
    | some dp =>
      (.ret none, state != 0 && dp.2 == 0, pySet func func_id (dp.1, state))
  else (.ret (some "Invalid id"), false, func)

end PyFunc

namespace MCP3008Driver

/-- One `MCP3008(...)` object as constructed in `load_data`: it stores the
constructor arguments.  The gpiozero constructor touches hardware; that
external collaborator is out of scope, so construction is modelled as
always succeeding. -/
structure MCPChannel where
  channel : JValue
  clock_pin : JValue
  mosi_pin : JValue
  miso_pin : JValue
  select_pin : JValue

/-- The `drivers` global of src/lib/mcp3008-driver/mcp3008-driver.py:
each entry is the list of constructed channel objects. -/
abbrev Registry := List (List MCPChannel)

/-- `load_data(data)` of the mcp3008 driver.  The five membership checks
short-circuit left to right; there is no field-type validation at all, so
`for channel in data["channels"]` raises `TypeError` when `channels` is
not iterable.  The pin lookups can only be reached with `data` a dict
holding all five keys (any other container already raised at
`data["channels"]`), so they always succeed there. -/
def load_data (data : Option JValue) (drivers : Registry) :
    POut (Except String Nat) × Registry :=
  match data with
  | none => (.ret (.error "Invalid data"), drivers)
  | some d =>
    match pyContains "clock_pin" d with
    | none => (.exn "TypeError", drivers)
    | some h1 =>
      if h1 then
        match pyContains "mosi_pin" d with
        | none => (.exn "TypeError", drivers)
        | some h2 =>
          if h2 then
            match pyContains "miso_pin" d with
            | none => (.exn "TypeError", drivers)
            | some h3 =>
              if h3 then
                match pyContains "select_pin" d with
                | none => (.exn "TypeError", drivers)
                | some h4 =>
                  if h4 then
                    match pyContains "channels" d with
                    | none => (.exn "TypeError", drivers)
                    | some h5 =>
                      if h5 then
                        match pyGetStr d "channels" with
                        | none => (.exn "TypeError", drivers)
                        | some chv =>
                          match pyIter chv with
                          | none => (.exn "TypeError", drivers)
                          | some chans =>
                            match pyGetStr d "clock_pin", pyGetStr d "mosi_pin",
                                  pyGetStr d "miso_pin", pyGetStr d "select_pin" with
                            | some cp, some mo, some mi, some sp =>
                              (.ret (.ok drivers.length),
                               drivers ++ [chans.map (fun c => MCPChannel.mk c cp mo mi sp)])
                            | _, _, _, _ => (.exn "KeyError", drivers)
                      else (.ret (.error "Missing fields in data"), drivers)
                  else (.ret (.error "Missing fields in data"), drivers)
              else (.ret (.error "Missing fields in data"), drivers)
          else (.ret (.error "Missing fields in data"), drivers)
      else (.ret (.error "Missing fields in data"), drivers)

/-- `set(driver_id, idx, state)` of the mcp3008 driver.  The body is the
single statement `pass`: it performs no bounds check, mutates nothing and
returns Python `None`. -/
def set (driver_id : Int) (idx : Int) (state : Int) (drivers : Registry) :
    POut (Option String) × Registry :=
  (.ret none, drivers)

end MCP3008Driver

/-! Operation alphabets and registry transition functions, used to state
registry-wide invariants (size monotonicity, no removal of instances). -/

/-- The public operations of the example driver module. -/
inductive DriverOp where
  | load : String → Option JValue → DriverOp
  | nameOf : Int → DriverOp
  | pollOf : Int → DriverOp

/-- Registry after one example-driver operation.  `name` and `poll` only
read the global list, so they leave the registry unchanged. -/
def PyDriver.step : DriverOp → PyDriver.Registry → PyDriver.Registry
  | .load nm d, st => (PyDriver.load_data nm d st).2
  | .nameOf _, st => st
  | .pollOf _, st => st

/-- The public operations of the example function module. -/
inductive FuncOp where
  | load : String → String → FuncOp
  | eventOf : Int → Int → FuncOp

/-- Registry after one example-function operation. -/
def PyFunc.step : FuncOp → PyFunc.Registry → PyFunc.Registry
  | .load nm d, st => (PyFunc.load_data nm d st).2
  | .eventOf i s, st => (PyFunc.event i s st).2.2

/-- The public operations of the mcp3008 driver module.  `poll` reads
hardware values but never touches the registry list. -/
inductive MCPOp where
  | load : Option JValue → MCPOp
  | pollOf : Int → MCPOp
  | setOf : Int → Int → Int → MCPOp

/-- Registry after one mcp3008 operation. -/
def MCP3008Driver.step : MCPOp → MCP3008Driver.Registry → MCP3008Driver.Registry
  | .load d, st => (MCP3008Driver.load_data d st).2
  | .pollOf _, st => st
  | .setOf i j v, st => (MCP3008Driver.set i j v st).2

/-- `true` exactly on a successful (handle-returning) outcome of the
example driver's `load_data`. -/
def isOkOut : POut (Except String Nat) → Bool
  | .ret (.ok _) => true
  | _ => false

/-- `true` exactly on a successful outcome of the example function's
`load_data`. -/
def isOkExc : Except String Nat → Bool
  | .ok _ => true
  | _ => false

/-- A sequence of `load_data` calls on the example driver registry:
the list of results, and the final registry. -/
def PyDriver.runLoads : List (String × Option JValue) → PyDriver.Registry →
    List (POut (Except String Nat)) × PyDriver.Registry
  | [], st => ([], st)
  | (nm, d) :: rest, st =>
    let r := PyDriver.load_data nm d st
    let rs := PyDriver.runLoads rest r.2
    (r.1 :: rs.1, rs.2)

/-- A sequence of `load_data` calls on the example function registry. -/
def PyFunc.runLoads : List (String × String) → PyFunc.Registry →
    List (Except String Nat) × PyFunc.Registry
  | [], st => ([], st)
  | (nm, d) :: rest, st =>
    let r := PyFunc.load_data nm d st
    let rs := PyFunc.runLoads rest r.2
    (r.1 :: rs.1, rs.2)

/-- A sequence of `event` calls on one handle of the example function
registry: the list of fired-side-effect flags, and the final registry. -/
def PyFunc.runEvents (h : Int) : List Int → PyFunc.Registry →
    List Bool × PyFunc.Registry
  | [], st => ([], st)
  | s :: rest, st =>
    let r := PyFunc.event h s st
    let rs := PyFunc.runEvents h rest r.2.2
    (r.2.1 :: rs.1, rs.2)

/-- Every registry entry the example driver's `load_data` ever appends has
this shape: a dict with a string `name` and a list `state`.  Lookups in
`name`/`poll` can only be analysed under this invariant. -/
def PyDriver.WF (st : PyDriver.Registry) : Prop :=
  ∀ d ∈ st, ∃ fs nm xs, d = JValue.jobj fs ∧
    objLookup fs "name" = some (.jstr nm) ∧ objLookup fs "state" = some (.jarr xs)

/-- The parsed payload `{"name": "Layer0", "state": [0, 0, 1]}` from the
spec's concrete scenario. -/
def layer0 : JValue :=
  .jobj [("name", .jstr "Layer0"), ("state", .jarr [.jint 0, .jint 0, .jint 1])]

/-- The parsed payload `{"name": "x", "state": [true]}`: its state holds a
boolean, not an integer. -/
def boolPayload : JValue :=
  .jobj [("name", .jstr "x"), ("state", .jarr [.jbool true])]

/-- Python `isinstance(x, str)`. -/
def isInstStr : JValue → Bool
  | .jstr _ => true
  | _ => false

/-- Python `isinstance(x, list)`. -/
def isInstList : JValue → Bool
  | .jarr _ => true
  | _ => false

/-- A payload whose `channels` field is an integer: the mcp3008 driver
iterates over it without any type check. -/
def badChannelsPayload : JValue :=
  .jobj [("clock_pin", .jint 1), ("mosi_pin", .jint 2), ("miso_pin", .jint 3),
         ("select_pin", .jint 4), ("channels", .jint 5)]

/-- A key that resolves under `objLookup` is found by the membership scan
Python's `in` performs on a dict. -/
theorem objLookup_mem_key (fs : List (String × JValue)) (k : String) (v : JValue)
    (h : objLookup fs k = some v) : fs.any (fun p => p.1 == k) = true := by
  induction fs with
  | nil => simp [objLookup] at h
  | cons p rest ih =>
    obtain ⟨a, b⟩ := p
    simp only [objLookup] at h
    by_cases hk : a == k
    · simp [List.any_cons, hk]
    · rw [if_neg hk] at h
      simp [List.any_cons, hk, ih h]

/-- The example driver's `load_data` either succeeds, appending exactly one
entry and returning the old registry size as the handle, or leaves the
registry unchanged with a non-handle outcome. -/
theorem PyDriver.load_data_append_or_unchanged (nm : String) (d : Option JValue)
    (st : PyDriver.Registry) :
    (∃ v, PyDriver.load_data nm d st = (.ret (.ok st.length), st ++ [v])) ∨
    (isOkOut (PyDriver.load_data nm d st).1 = false ∧
      (PyDriver.load_data nm d st).2 = st) := by
  unfold PyDriver.load_data
  repeat' split
  all_goals first
    | exact Or.inl ⟨_, rfl⟩
    | exact Or.inr ⟨rfl, rfl⟩

/-- The mcp3008 driver's `load_data` either succeeds, appending exactly one
entry and returning the old registry size as the handle, or leaves the
registry unchanged (also when it raises). -/
theorem MCP3008Driver.load_append_or_unchanged (d : Option JValue)
    (st : MCP3008Driver.Registry) :
    (∃ chs, MCP3008Driver.load_data d st = (.ret (.ok st.length), st ++ [chs])) ∨
    (isOkOut (MCP3008Driver.load_data d st).1 = false ∧
      (MCP3008Driver.load_data d st).2 = st) := by
  unfold MCP3008Driver.load_data
  repeat' split
  all_goals first
    | exact Or.inl ⟨_, rfl⟩
    | exact Or.inr ⟨rfl, rfl⟩

/-- The example function's `load_data` either appends one entry (payload
verbatim, previous state `0`) returning the old size, or rejects the type
name leaving the registry unchanged. -/
theorem PyFunc.load_append_or_reject (nm : String) (d : String) (st : PyFunc.Registry) :
    PyFunc.load_data nm d st = (.ok st.length, st ++ [(d, 0)]) ∨
    (PyFunc.load_data nm d st = (.error "Unknown function", st)) := by
  unfold PyFunc.load_data
  split
  · exact Or.inl rfl
  · exact Or.inr rfl

/-- C9: for every type name other than "Const" the example driver's
`load_data` returns the unknown-type error and leaves the registry
unchanged, for any payload whatsoever (parseable or not): the type-name
dispatch precedes payload parsing. -/
theorem c9_unknown_type_precedence (nm : String) (h : nm ≠ "Const")
    (data : Option JValue) (st : PyDriver.Registry) :
    PyDriver.load_data nm data st = (.ret (.error "Unknown driver"), st) := by
  unfold PyDriver.load_data
  rw [if_neg h]

/-- Witness for C9 at the concrete name "Frobnicate" with an unparseable
payload and the empty registry. -/
theorem c9_unknown_type_precedence_witness :
    PyDriver.load_data "Frobnicate" none [] = (.ret (.error "Unknown driver"), []) :=
  c9_unknown_type_precedence "Frobnicate" (by decide) none []

/-- C10: booleans pass the per-element integer check (`isinstance(True, int)`
holds in Python), so `{"name":"x","state":[true]}` loads successfully and
`poll` returns the stored boolean instead of a `WrongFieldTypes` rejection. -/
theorem c10_bool_state_accepted :
    isInstInt (.jbool true) = true ∧
    PyDriver.load_data "Const" (some boolPayload) [] = (.ret (.ok 0), [boolPayload]) ∧
    PyDriver.poll 0 [boolPayload] = .ret (.ok (.jarr [.jbool true])) :=
  ⟨rfl, rfl, rfl⟩

/-- C7: the mcp3008 driver's `set` is the stub `pass`: for every handle,
index, value and registry it returns Python `None` and changes nothing —
no `IndexOutOfBounds` check and no element mutation ever happens. -/
theorem c7_set_is_stub (driver_id idx state : Int) (st : MCP3008Driver.Registry) :
    MCP3008Driver.set driver_id idx state st = (.ret none, st) := rfl

/-- Counterexample for C3: the function registry applies no validation at
all — the raw payload "\x7b" (rejected by the driver registry's parser as
`Invalid data`) is accepted verbatim by the function registry, which grows. -/
theorem c3_counterexample_no_function_validation :
    PyFunc.load_data "PyPrint" "\x7b" [] = (.ok 0, [("\x7b", 0)]) ∧
    PyDriver.load_data "Const" none [] = (.ret (.error "Invalid data"), []) :=
  ⟨rfl, rfl⟩

/-- Counterexample for C6: the handle `-1` is outside `[0, size)` yet
`poll(-1)` on a one-entry registry succeeds via Python's negative
indexing instead of returning `UnknownId`. -/
theorem c6_counterexample_negative_handle :
    PyDriver.poll (-1) [layer0] = .ret (.ok (.jarr [.jint 0, .jint 0, .jint 1])) := rfl

/-- Counterexample for C8: a payload whose `channels` field is the integer
`5` makes the mcp3008 driver's `load_data` raise an uncaught `TypeError`
(iteration over a non-iterable) instead of returning an error value. -/
theorem c8_counterexample_uncaught_typeerror :
    MCP3008Driver.load_data (some badChannelsPayload) [] = (.exn "TypeError", []) := rfl

/-- C1: loading a valid payload (a dict with a string `name` and a list
`state` of Python ints) onto any driver registry returns the fresh handle
`size`, and on the grown registry `poll` of that handle returns exactly the
stored state list while `name` returns exactly the stored name. -/
theorem c1_load_poll_name_roundtrip (fs : List (String × JValue)) (nm : String)
    (xs : List JValue) (st : PyDriver.Registry)
    (hn : objLookup fs "name" = some (.jstr nm))
    (hs : objLookup fs "state" = some (.jarr xs))
    (hint : xs.all isInstInt = true) :
    PyDriver.load_data "Const" (some (.jobj fs)) st =
      (.ret (.ok st.length), st ++ [.jobj fs]) ∧
    PyDriver.poll (st.length : Int) (st ++ [.jobj fs]) = .ret (.ok (.jarr xs)) ∧
    PyDriver.name (st.length : Int) (st ++ [.jobj fs]) = .ret ⟨some (.jstr nm), none⟩ := by
  have hlen : ((st ++ [JValue.jobj fs]).length : Int) = (st.length : Int) + 1 := by
    simp
  have hget : pyGet (st ++ [JValue.jobj fs]) (st.length : Int) = some (.jobj fs) := by
    unfold pyGet
    rw [if_pos (Int.ofNat_nonneg st.length)]
    rw [Int.toNat_natCast]
    exact List.get?_concat_length st (JValue.jobj fs)
  refine ⟨?_, ?_, ?_⟩
  · unfold PyDriver.load_data
    rw [if_pos rfl]
    simp only [pyContains, pyGetStr,
      objLookup_mem_key fs "name" _ hn, objLookup_mem_key fs "state" _ hs, hn, hs]
    simp [hint]
  · unfold PyDriver.poll
    rw [if_pos (by rw [hlen]; omega)]
    rw [hget]
    simp only [pyGetStr, hs]
  · unfold PyDriver.name
    rw [if_pos (by rw [hlen]; omega)]
    rw [hget]
    simp only [pyGetStr, hn]

/-- Witness for C1 at the spec's concrete scenario: loading
`{"name":"Layer0","state":[0,0,1]}` onto the empty registry yields handle
`0`, `poll 0` returns `[0,0,1]` and `name 0` returns "Layer0". -/
theorem c1_load_poll_name_roundtrip_witness :
    PyDriver.load_data "Const" (some layer0) [] = (.ret (.ok 0), [layer0]) ∧
    PyDriver.poll 0 [layer0] = .ret (.ok (.jarr [.jint 0, .jint 0, .jint 1])) ∧
    PyDriver.name 0 [layer0] = .ret ⟨some (.jstr "Layer0"), none⟩ :=
  c1_load_poll_name_roundtrip
    [("name", .jstr "Layer0"), ("state", .jarr [.jint 0, .jint 0, .jint 1])]
    "Layer0" [.jint 0, .jint 0, .jint 1] [] rfl rfl rfl

/-- C4: on a valid handle, `event` fires the side effect exactly when the
pushed state is nonzero and the stored previous state was zero, and the
entry's previous state is overwritten with the pushed state either way. -/
theorem c4_edge_trigger (func_id s : Int) (func : PyFunc.Registry)
    (data : String) (prev : Int) (h0 : 0 ≤ func_id)
    (hget : func.get? func_id.toNat = some (data, prev)) :
    PyFunc.event func_id s func =
      (.ret none, s != 0 && prev == 0, func.set func_id.toNat (data, s)) ∧
    (func.set func_id.toNat (data, s)).get? func_id.toNat = some (data, s) := by
  have hlt : func_id.toNat < func.length := by
    by_contra hge
    rw [List.get?_eq_none.mpr (Nat.le_of_not_lt hge)] at hget
    exact Option.noConfusion hget
  constructor
  · unfold PyFunc.event
    rw [if_pos (by omega)]
    unfold pyGet
    rw [if_pos h0, hget]
    unfold pySet
    simp [h0]
  · exact List.get?_set_eq_of_lt _ hlt

/-- Witness for C4: from a fresh instance the event sequence 5, 7, 0, 3
fires exactly at the 5 and the 3, and a single event call matches the
general characterisation. -/
theorem c4_edge_trigger_witness :
    (PyFunc.runEvents 0 [5, 7, 0, 3] [("hello", 0)]).1 = [true, false, false, true] ∧
    PyFunc.event 0 5 [("hello", 0)] =
      (.ret none, true, [("hello", 5)]) :=
  ⟨rfl, (c4_edge_trigger 0 5 [("hello", 0)] "hello" 0 (by decide) rfl).1⟩

/-- C6 (amended): `poll`, `name` and `event` return their unknown-id error
for every handle at or above the registry size and succeed for every
handle in `[0, size)`; the lower bound is not checked, so negative handles
are not rejected (see the counterexample). -/
theorem c6_handle_validity :
    (∀ (h : Int) (st : PyDriver.Registry), PyDriver.WF st →
      ((st.length : Int) ≤ h →
        PyDriver.poll h st = .ret (.error "Unknown id") ∧
        PyDriver.name h st = .ret ⟨none, some "Unknown id"⟩) ∧
      (0 ≤ h → h < (st.length : Int) →
        (∃ xs, PyDriver.poll h st = .ret (.ok (.jarr xs))) ∧
        (∃ s, PyDriver.name h st = .ret ⟨some (.jstr s), none⟩))) ∧
    (∀ (h s : Int) (st : PyFunc.Registry),
      ((st.length : Int) ≤ h →
        PyFunc.event h s st = (.ret (some "Invalid id"), false, st)) ∧
      (0 ≤ h → h < (st.length : Int) →
        ∃ d p, st.get? h.toNat = some (d, p) ∧
          PyFunc.event h s st = (.ret none, s != 0 && p == 0, st.set h.toNat (d, s)))) := by
  constructor
  · intro h st hwf
    constructor
    · intro hge
      refine ⟨?_, ?_⟩
      · unfold PyDriver.poll; rw [if_neg (by omega)]
      · unfold PyDriver.name; rw [if_neg (by omega)]
    · intro h0 hlt
      have hnat : h.toNat < st.length := by omega
      have hget : st.get? h.toNat = some (st.get ⟨h.toNat, hnat⟩) :=
        List.get?_eq_get hnat
      obtain ⟨fs, nm, xs, hd, hn, hs⟩ := hwf _ (st.get_mem _ _)
      have hpg : pyGet st h = some (JValue.jobj fs) := by
        unfold pyGet; rw [if_pos h0, hget, hd]
      refine ⟨⟨xs, ?_⟩, ⟨nm, ?_⟩⟩
      · unfold PyDriver.poll; rw [if_pos hlt, hpg]; simp only [pyGetStr, hs]
      · unfold PyDriver.name; rw [if_pos hlt, hpg]; simp only [pyGetStr, hn]
  · intro h s st
    constructor
    · intro hge
      unfold PyFunc.event; rw [if_neg (by omega)]
    · intro h0 hlt
      have hnat : h.toNat < st.length := by omega
      have hget : st.get? h.toNat = some (st.get ⟨h.toNat, hnat⟩) :=
        List.get?_eq_get hnat
      refine ⟨(st.get ⟨h.toNat, hnat⟩).1, (st.get ⟨h.toNat, hnat⟩).2, by simp [hget], ?_⟩
      unfold PyFunc.event
      rw [if_pos hlt]
      unfold pyGet
      rw [if_pos h0, hget]
      unfold pySet
      simp [h0]

/-- Witness for C6: on the one-entry registry, handle 1 is rejected with
"Unknown id" while handle 0 succeeds; on the function registry, handle 3
is rejected with "Invalid id". -/
theorem c6_handle_validity_witness :
    PyDriver.poll 1 [layer0] = .ret (.error "Unknown id") ∧
    (∃ xs, PyDriver.poll 0 [layer0] = .ret (.ok (.jarr xs))) ∧
    PyFunc.event 3 1 [("hello", 0)] = (.ret (some "Invalid id"), false, [("hello", 0)]) := by
  have hwf : PyDriver.WF [layer0] := by
    intro d hd
    rw [List.mem_singleton] at hd
    subst hd
    exact ⟨_, "Layer0", _, rfl, rfl, rfl⟩
  exact ⟨((c6_handle_validity.1 1 [layer0] hwf).1 (by decide)).1,
         ((c6_handle_validity.1 0 [layer0] hwf).2 (by decide) (by decide)).1,
         (c6_handle_validity.2 3 1 [("hello", 0)]).1 (by decide)⟩

/-- Each successful result in a run of example-driver `load_data` calls
equals the initial registry size plus the number of earlier successes. -/
theorem PyDriver.runLoads_success_handle (reqs : List (String × Option JValue)) :
    ∀ (st : PyDriver.Registry) (i h : Nat),
      (PyDriver.runLoads reqs st).1.get? i = some (.ret (.ok h)) →
      h = st.length + ((PyDriver.runLoads reqs st).1.take i).countP isOkOut := by
  induction reqs with
  | nil =>
    intro st i h hr
    simp [PyDriver.runLoads] at hr
  | cons req rest ih =>
    obtain ⟨nm, d⟩ := req
    intro st i h hr
    simp only [PyDriver.runLoads] at hr ⊢
    rcases i with _ | i
    · simp only [List.get?] at hr
      injection hr with hr
      rcases PyDriver.load_data_append_or_unchanged nm d st with ⟨v, hv⟩ | ⟨hf, _⟩
      · rw [hv] at hr
        injection hr with hr
        injection hr with hr
        simp [hr.symm]
      · rw [hr] at hf
        simp [isOkOut] at hf
    · simp only [List.get?] at hr
      rw [List.take_succ_cons, List.countP_cons]
      rcases PyDriver.load_data_append_or_unchanged nm d st with ⟨v, hv⟩ | ⟨hf, h2⟩
      · have hih := ih (PyDriver.load_data nm d st).2 i h hr
        rw [hv] at hih ⊢
        simp only [isOkOut] at hih ⊢
        simp at hih ⊢
        omega
      · have hih := ih (PyDriver.load_data nm d st).2 i h hr
        rw [h2] at hih
        rw [h2, hf]
        simpa using hih

/-- Each successful result in a run of example-function `load_data` calls
equals the initial registry size plus the number of earlier successes. -/
theorem PyFunc.runLoads_success_count (reqs : List (String × String)) :
    ∀ (st : PyFunc.Registry) (i h : Nat),
      (PyFunc.runLoads reqs st).1.get? i = some (.ok h) →
      h = st.length + ((PyFunc.runLoads reqs st).1.take i).countP isOkExc := by
  induction reqs with
  | nil =>
    intro st i h hr
    simp [PyFunc.runLoads] at hr
  | cons req rest ih =>
    obtain ⟨nm, d⟩ := req
    intro st i h hr
    simp only [PyFunc.runLoads] at hr ⊢
    rcases i with _ | i
    · simp only [List.get?] at hr
      injection hr with hr
      rcases PyFunc.load_append_or_reject nm d st with hv | hv
      · rw [hv] at hr
        injection hr with hr
        simp [hr.symm]
      · rw [hv] at hr
        exact absurd hr (by simp)
    · simp only [List.get?] at hr
      rw [List.take_succ_cons, List.countP_cons]
      rcases PyFunc.load_append_or_reject nm d st with hv | hv
      · have hih := ih (PyFunc.load_data nm d st).2 i h hr
        rw [hv] at hih ⊢
        simp only [isOkExc] at hih ⊢
        simp at hih ⊢
        omega
      · have hih := ih (PyFunc.load_data nm d st).2 i h hr
        rw [hv] at hih ⊢
        simpa [isOkExc] using hih

/-- `pySet` never changes the length of the list. -/
theorem pySet_length {α : Type} (xs : List α) (i : Int) (a : α) :
    (pySet xs i a).length = xs.length := by
  unfold pySet
  repeat' split
  all_goals simp

/-- No example-driver operation shrinks the registry. -/
theorem PyDriver.length_mono_driver_step (op : DriverOp) (st : PyDriver.Registry) :
    st.length ≤ (PyDriver.step op st).length := by
  cases op with
  | load nm d =>
    rcases PyDriver.load_data_append_or_unchanged nm d st with ⟨v, hv⟩ | ⟨_, h2⟩
    · simp [PyDriver.step, hv]
    · simp [PyDriver.step, h2]
  | nameOf i => exact le_refl _
  | pollOf i => exact le_refl _

/-- No example-function operation shrinks the registry: `load_data`
appends or rejects, `event` replaces one entry in place. -/
theorem PyFunc.length_mono_func_step (op : FuncOp) (st : PyFunc.Registry) :
    st.length ≤ (PyFunc.step op st).length := by
  cases op with
  | load nm d =>
    rcases PyFunc.load_append_or_reject nm d st with hv | hv
    · simp [PyFunc.step, hv]
    · simp [PyFunc.step, hv]
  | eventOf i s =>
    have : (PyFunc.event i s st).2.2.length = st.length := by
      unfold PyFunc.event
      repeat' split
      all_goals simp [pySet_length]
    simp [PyFunc.step, this]

/-- No mcp3008 operation shrinks the registry. -/
theorem MCP3008Driver.length_mono_mcp_step (op : MCPOp) (st : MCP3008Driver.Registry) :
    st.length ≤ (MCP3008Driver.step op st).length := by
  cases op with
  | load d =>
    rcases MCP3008Driver.load_append_or_unchanged d st with ⟨chs, hv⟩ | ⟨_, h2⟩
    · simp [MCP3008Driver.step, hv]
    · simp [MCP3008Driver.step, h2]
  | pollOf i => exact le_refl _
  | setOf i j v => exact le_refl _

/-- C2: handles are assigned sequentially starting at 0 — in any run of
`load_data` calls from the empty registry (driver or function), the k-th
successful call returns handle k (each success returns the number of
earlier successes); moreover no operation of any module ever shrinks a
registry, and every instance present before an operation is still present
after it. -/
theorem c2_sequential_handles :
    (∀ reqs i h, (PyDriver.runLoads reqs []).1.get? i = some (.ret (.ok h)) →
      h = ((PyDriver.runLoads reqs []).1.take i).countP isOkOut) ∧
    (∀ reqs i h, (PyFunc.runLoads reqs []).1.get? i = some (.ok h) →
      h = ((PyFunc.runLoads reqs []).1.take i).countP isOkExc) ∧
    (∀ op st, st.length ≤ (PyDriver.step op st).length) ∧
    (∀ op st, st.length ≤ (PyFunc.step op st).length) ∧
    (∀ op st, st.length ≤ (MCP3008Driver.step op st).length) ∧
    (∀ op st i, i < st.length → ∃ e, (PyDriver.step op st).get? i = some e) ∧
    (∀ op st i, i < st.length → ∃ e, (PyFunc.step op st).get? i = some e) ∧
    (∀ op st i, i < st.length → ∃ e, (MCP3008Driver.step op st).get? i = some e) := by
  refine ⟨?_, ?_, PyDriver.length_mono_driver_step, PyFunc.length_mono_func_step,
    MCP3008Driver.length_mono_mcp_step, ?_, ?_, ?_⟩
  · intro reqs i h hr
    simpa using PyDriver.runLoads_success_handle reqs [] i h hr
  · intro reqs i h hr
    simpa using PyFunc.runLoads_success_count reqs [] i h hr
  · intro op st i hi
    exact ⟨_, List.get?_eq_get (lt_of_lt_of_le hi (PyDriver.length_mono_driver_step op st))⟩
  · intro op st i hi
    exact ⟨_, List.get?_eq_get (lt_of_lt_of_le hi (PyFunc.length_mono_func_step op st))⟩
  · intro op st i hi
    exact ⟨_, List.get?_eq_get (lt_of_lt_of_le hi (MCP3008Driver.length_mono_mcp_step op st))⟩

/-- Witness for C2: in the run failure, success, success from the empty
registry, the result at position 2 is the second success and carries
handle 1, the number of earlier successes. -/
theorem c2_sequential_handles_witness :
    (PyDriver.runLoads [("Bad", none), ("Const", some layer0), ("Const", some layer0)]
        []).1.get? 2 = some (.ret (.ok 1)) ∧
    1 = ((PyDriver.runLoads [("Bad", none), ("Const", some layer0), ("Const", some layer0)]
        []).1.take 2).countP isOkOut :=
  ⟨rfl, c2_sequential_handles.1 _ 2 1 rfl⟩

/-- C8 (amended): every `load_data` either succeeds — appending exactly one
instance and returning the old size as the handle — or leaves the registry
exactly as it was, whether the failure is a returned error value or an
uncaught exception; no partial mutation ever happens. -/
theorem c8_failures_leave_registry_unchanged :
    (∀ data st, (MCP3008Driver.load_data data st).2 = st ∨
      ∃ chs, MCP3008Driver.load_data data st = (.ret (.ok st.length), st ++ [chs])) ∧
    (∀ nm data st, (PyDriver.load_data nm data st).2 = st ∨
      ∃ v, PyDriver.load_data nm data st = (.ret (.ok st.length), st ++ [v])) ∧
    (∀ nm data st, (PyFunc.load_data nm data st).2 = st ∨
      PyFunc.load_data nm data st = (.ok st.length, st ++ [(data, 0)])) := by
  refine ⟨?_, ?_, ?_⟩
  · intro data st
    rcases MCP3008Driver.load_append_or_unchanged data st with ⟨chs, hv⟩ | ⟨_, h2⟩
    · exact Or.inr ⟨chs, hv⟩
    · exact Or.inl h2
  · intro nm data st
    rcases PyDriver.load_data_append_or_unchanged nm data st with ⟨v, hv⟩ | ⟨_, h2⟩
    · exact Or.inr ⟨v, hv⟩
    · exact Or.inl h2
  · intro nm data st
    rcases PyFunc.load_append_or_reject nm data st with hv | hv
    · exact Or.inr hv
    · exact Or.inl (by rw [hv])

/-- C3 (amended): the driver registry returns the matching typed error and
does not grow on every validation failure its checks reach (unparseable
payload, dict payload with a missing field, wrong-typed `name`/`state`,
non-integer state element); the function registry applies no payload
validation at all — it stores any payload verbatim for the known type name
and only rejects unknown type names, again without growing. -/
theorem c3_driver_validates_function_does_not :
    (∀ st, PyDriver.load_data "Const" none st = (.ret (.error "Invalid data"), st)) ∧
    (∀ st fs, (fs.any (fun p => p.1 == "name") = false ∨
        fs.any (fun p => p.1 == "state") = false) →
      PyDriver.load_data "Const" (some (.jobj fs)) st =
        (.ret (.error "Missing fields in data"), st)) ∧
    (∀ st fs nv sv, objLookup fs "name" = some nv → objLookup fs "state" = some sv →
      (isInstStr nv = false ∨ (isInstStr nv = true ∧ isInstList sv = false)) →
      PyDriver.load_data "Const" (some (.jobj fs)) st =
        (.ret (.error "Wrong data field types"), st)) ∧
    (∀ st fs nm xs, objLookup fs "name" = some (.jstr nm) →
      objLookup fs "state" = some (.jarr xs) → xs.all isInstInt = false →
      PyDriver.load_data "Const" (some (.jobj fs)) st =
        (.ret (.error "State must contain only ints"), st)) ∧
    (∀ st s, PyFunc.load_data "PyPrint" s st = (.ok st.length, st ++ [(s, 0)])) ∧
    (∀ st s nm, nm ≠ "PyPrint" →
      PyFunc.load_data nm s st = (.error "Unknown function", st)) := by
  refine ⟨?_, ?_, ?_, ?_, ?_, ?_⟩
  · intro st
    rfl
  · intro st fs hmem
    unfold PyDriver.load_data
    rw [if_pos rfl]
    simp only [pyContains]
    rcases hmem with h1 | h2
    · rw [h1]
      simp
    · cases h1 : fs.any (fun p => p.1 == "name") with
      | false => simp
      | true =>
        rw [h2]
        simp
  · intro st fs nv sv hn hs hty
    unfold PyDriver.load_data
    rw [if_pos rfl]
    simp only [pyContains, pyGetStr]
    rw [objLookup_mem_key fs "name" nv hn, objLookup_mem_key fs "state" sv hs, hn, hs]
    rcases hty with h1 | ⟨h1, h2⟩
    · cases nv <;> simp [isInstStr] at h1 ⊢
    · cases nv <;> simp [isInstStr] at h1
      cases sv <;> simp [isInstList] at h2 ⊢
  · intro st fs nm xs hn hs hall
    unfold PyDriver.load_data
    rw [if_pos rfl]
    simp only [pyContains, pyGetStr]
    rw [objLookup_mem_key fs "name" _ hn, objLookup_mem_key fs "state" _ hs, hn, hs]
    simp [hall]
  · intro st s
    rfl
  · intro st s nm h
    unfold PyFunc.load_data
    rw [if_neg h]

/-- Witness for C3 (amended): the payload missing `name` is rejected with
"Missing fields in data" without growth, and an unknown function type name
is rejected without growth. -/
theorem c3_driver_validates_function_does_not_witness :
    PyDriver.load_data "Const" (some (.jobj [("state", .jarr [])])) [] =
      (.ret (.error "Missing fields in data"), []) ∧
    PyFunc.load_data "Nope" "x" [] = (.error "Unknown function", []) :=
  ⟨c3_driver_validates_function_does_not.2.1 [] [("state", .jarr [])] (Or.inl rfl),
   c3_driver_validates_function_does_not.2.2.2.2.2 [] "x" "Nope" (by decide)⟩

/-- C5: the example modules return raw values, not the documented
`{"ok": .., "err": ..}` envelope: `load_data` returns a bare handle,
`poll` the bare stored list, `event` bare `None`, `set` bare `None`;
only `name` builds the envelope. -/
theorem c5_raw_return_values :
    PyDriver.load_data "Const" (some layer0) [] = (.ret (.ok 0), [layer0]) ∧
    PyDriver.poll 0 [layer0] = .ret (.ok (.jarr [.jint 0, .jint 0, .jint 1])) ∧
    PyDriver.name 0 [layer0] = .ret ⟨some (.jstr "Layer0"), none⟩ ∧
    PyFunc.event 0 5 [("hello", 0)] = (.ret none, true, [("hello", 5)]) ∧
    MCP3008Driver.set 0 0 1 [] = (.ret none, []) :=
  ⟨rfl, rfl, rfl, rfl, rfl⟩
